import Mathlib

/-!
Verification of the RALA radar front-end (`src/frontend/src/App.js`).

The component under study is the `App` function: it owns four pieces of
React state (`metadata`, `radarUrl`, `lastUpdated`, `bounds`), a
`fetchMetadata` callback that fetches `{BACKEND}/api/radar/metadata/`,
parses the body as JSON and assigns the three display fields inside a
`try { ... } catch (err) { console.error(...) }` block, and a `useEffect`
that calls `fetchMetadata` once on mount, registers a `setInterval` with
period `5 * 60 * 1000` ms, and clears that interval in its cleanup.

The embedding below models JavaScript values, property/index access
(including the `TypeError` thrown when the receiver is `null` or
`undefined`), the sequential execution of the three state setters, and the
catch-all error handler.  Numbers are carried as rationals: the code never
performs arithmetic on them, it only moves them, so the carrier is exact.
-/

set_option autoImplicit false

namespace RALA

/-- A JavaScript runtime value, as far as `App.js` can observe one:
`undefined`, `null`, booleans, numbers, strings, arrays and plain objects
(an object is its ordered field list; lookup takes the first match). -/
inductive JSVal where
  | undefined
  | jsnull
  | bool (b : Bool)
  | num (q : ℚ)
  | str (s : String)
  | arr (xs : List JSVal)
  | obj (fields : List (String × JSVal))

/-- First-match field lookup in an object literal. -/
def lookupField : List (String × JSVal) → String → Option JSVal
  | [], _ => none
  | (k, v) :: rest, key => if k = key then some v else lookupField rest key

/-- JS property access `v.key`.  Throws `TypeError` (modelled as `.error ()`)
when the receiver is `undefined` or `null`; a missing field on an object, or
a field access on a primitive or array, yields `undefined`. -/
def getField : JSVal → String → Except Unit JSVal
  | .undefined, _ => .error ()
  | .jsnull, _ => .error ()
  | .obj fields, key => .ok ((lookupField fields key).getD .undefined)
  | _, _ => .ok .undefined

/-- JS index access `v[i]`.  Throws on `undefined`/`null`; on an array an
out-of-range index yields `undefined`; on a string it yields the one-char
string at that position; an object can carry numeric-string keys; any other
receiver yields `undefined`. -/
def getIndex : JSVal → Nat → Except Unit JSVal
  | .undefined, _ => .error ()
  | .jsnull, _ => .error ()
  | .arr xs, i => .ok ((xs.get? i).getD .undefined)
  | .str s, i =>
      .ok (match s.data.get? i with
           | some c => .str (String.mk [c])
           | none => .undefined)
  | .obj fields, i => .ok ((lookupField fields (toString i)).getD .undefined)
  | _, _ => .ok .undefined

/-- The display-facing state owned by `App`: the `radarUrl`, `lastUpdated`
and `bounds` `useState` cells.  (The unused `metadata` cell is modelled
separately in `AppState`.) -/
structure DisplayState where
  radarUrl : JSVal
  lastUpdated : JSVal
  bounds : JSVal

/-- The initial state from the `useState` initializers:
`radarUrl = null`, `lastUpdated = null`,
`bounds = [[20.0, -130.0], [55.0, -60.0]]`. -/
def initState : DisplayState :=
  { radarUrl := .jsnull
    lastUpdated := .jsnull
    bounds := .arr [.arr [.num 20, .num (-130)], .arr [.num 55, .num (-60)]] }

/-- What a single `fetch` of the metadata endpoint can come back with:
the promise rejects (network failure), or a response with some HTTP status
whose body either fails `res.json()` or parses to a JS value. -/
inductive FetchResult where
  | networkError
  | response (status : Nat) (body : Except Unit JSVal)

/-- The `try` block of `fetchMetadata`, executed step by step:

```js
const res = await fetch(`${BACKEND}/api/radar/metadata/`);
const data = await res.json();
setRadarUrl(data.image_url);
setLastUpdated(data.last_updated);
setBounds([[data.bounds[0], data.bounds[1]],
           [data.bounds[2], data.bounds[3]]]);
```

Note the code never reads `res.status` or `res.ok`: the HTTP status is
ignored, and `res.json()` is attempted on every response.  Each setter that
executes before an exception is thrown has already taken effect, so the
error value carries the state as mutated so far. -/
def fetchBody (st : DisplayState) (r : FetchResult) : Except DisplayState DisplayState :=
  match r with
  | .networkError => .error st
  | .response _status bodyResult =>
    match bodyResult with
    | .error _ => .error st
    | .ok data =>
      match getField data "image_url" with
      | .error _ => .error st
      | .ok u =>
        let st1 : DisplayState := { st with radarUrl := u }
        match getField data "last_updated" with
        | .error _ => .error st1
        | .ok lu =>
          let st2 : DisplayState := { st1 with lastUpdated := lu }
          match getField data "bounds" with
          | .error _ => .error st2
          | .ok b =>
            match getIndex b 0, getIndex b 1, getIndex b 2, getIndex b 3 with
            | .ok b0, .ok b1, .ok b2, .ok b3 =>
                .ok { st2 with bounds := .arr [.arr [b0, b1], .arr [b2, b3]] }
            | _, _, _, _ => .error st2

/-- `fetchMetadata` as seen by its caller: the whole body is wrapped in
`try { ... } catch (err) { console.error(...) }`, so any thrown exception
is swallowed (the `catch` only logs) and the function returns normally.
The result is `Except.ok` of the state after the call; a caller-visible
exception would be `Except.error`, which this function never produces. -/
def fetchMetadata (st : DisplayState) (r : FetchResult) : Except Unit DisplayState :=
  match fetchBody st r with
  | .ok stNew => .ok stNew
  | .error stPartial => .ok stPartial

/-- The state after one `fetchMetadata` call (the call always returns
normally, so this is total). -/
def fetchMetadataRun (st : DisplayState) (r : FetchResult) : DisplayState :=
  match fetchBody st r with
  | .ok stNew => stNew
  | .error stPartial => stPartial

/-- The display state after a sequence of refresh cycles starting from the
initial state. -/
def runRefreshes (rs : List FetchResult) : DisplayState :=
  rs.foldl fetchMetadataRun initState

/-- JavaScript truthiness, as used by `radarUrl && <ImageOverlay ... />`
and `lastUpdated && <p>...</p>`.  (`NaN` is not representable in the
rational carrier; the code never produces it from a JSON number anyway.) -/
def truthy : JSVal → Bool
  | .undefined => false
  | .jsnull => false
  | .bool b => b
  | .num q => !(q == 0)
  | .str s => !(s == "")
  | .arr _ => true
  | .obj _ => true

/-- What the `ImageOverlay` collaborator receives:
`{radarUrl && <ImageOverlay url={radarUrl} bounds={bounds} opacity={0.7} />}`
renders nothing when `radarUrl` is falsy, and otherwise passes the current
`radarUrl` and `bounds` to the overlay. -/
def renderOverlay (st : DisplayState) : Option (JSVal × JSVal) :=
  if truthy st.radarUrl then some (st.radarUrl, st.bounds) else none

/-- The shape invariant claimed for `bounds`: a pair of coordinate pairs,
i.e. a two-element array whose elements are two-element arrays. -/
def wfBounds : JSVal → Bool
  | .arr [.arr [_, _], .arr [_, _]] => true
  | _ => false

/-- `true` on `Except.ok`. -/
def exOk : Except Unit JSVal → Bool
  | .ok _ => true
  | .error _ => false

/-- The value of an `Except`, with a default for the error case. -/
def exGetD (d : JSVal) : Except Unit JSVal → JSVal
  | .ok v => v
  | .error _ => d

/-- A fetch outcome on which the whole `try` block of `fetchMetadata` runs
to completion (all three setters execute): the body parses to `data`,
`data` tolerates field access, and `data.bounds` tolerates index access.
The HTTP status is irrelevant because the code never inspects it. -/
def validResp : FetchResult → Bool
  | .response _ (.ok data) =>
      exOk (getField data "image_url") &&
      exOk (getField data "last_updated") &&
      (match getField data "bounds" with
       | .ok b => exOk (getIndex b 0) && exOk (getIndex b 1) &&
                  exOk (getIndex b 2) && exOk (getIndex b 3)
       | .error _ => false)
  | _ => false

/-- The display state determined by a parsed payload `data` alone, when the
`try` block runs to completion: every field is read off the payload, so a
completed refresh is independent of the previous state. -/
def payloadState (data : JSVal) : DisplayState :=
  let b := exGetD .undefined (getField data "bounds")
  { radarUrl := exGetD .undefined (getField data "image_url")
    lastUpdated := exGetD .undefined (getField data "last_updated")
    bounds := .arr [.arr [exGetD .undefined (getIndex b 0), exGetD .undefined (getIndex b 1)],
                    .arr [exGetD .undefined (getIndex b 2), exGetD .undefined (getIndex b 3)]] }

/-- Modelled from the spec, §5: the runtime commit semantics of the state
setters.  "State replacement is atomic in the sense that a reader never
observes a half-updated DisplayState": all setter calls made in one
synchronous continuation (the three setters in `fetchMetadata` run with no
`await` between them) commit as a single observable transition, so the
rendering consumer observes only the state before the refresh and the
state after it. -/
def observableStates (st : DisplayState) (r : FetchResult) : List DisplayState :=
  [st, fetchMetadataRun st r]

/-- Full component state: `App` also owns a `metadata` cell,
`const [metadata, setMetadata] = useState(null)`. -/
structure AppState where
  metadata : JSVal
  display : DisplayState

/-- Component state at mount: `metadata` starts as `null`. -/
def initAppState : AppState :=
  { metadata := .jsnull, display := initState }

/-- One refresh cycle at the level of the whole component: `fetchMetadata`
calls `setRadarUrl`, `setLastUpdated` and `setBounds` only — no code path
in `App` ever invokes `setMetadata`. -/
def appRefresh (s : AppState) (r : FetchResult) : AppState :=
  { s with display := fetchMetadataRun s.display r }

/-- The component state after a sequence of refresh cycles. -/
def runApp (rs : List FetchResult) : AppState :=
  rs.foldl appRefresh initAppState

/-- The polling period: `setInterval(fetchMetadata, 5 * 60 * 1000)`. -/
def REFRESH_INTERVAL_MS : Nat := 5 * 60 * 1000

/-- Which instants (ms since activation) see a fetch attempt, for a view
activated at time 0 and deactivated at time `d`.  Embeds the `useEffect`
body: `fetchMetadata()` runs immediately at activation; the interval
registered at time 0 fires at every positive multiple of its period while
registered; the effect cleanup runs `clearInterval(interval)` at
deactivation, so no interval firing occurs at or after `d`. -/
def fetchAttemptAt (d t : Nat) : Bool :=
  t == 0 || (t % REFRESH_INTERVAL_MS == 0 && decide (0 < t) && decide (t < d))

/-- Whether the fetch continuation, once it runs, invokes at least one state
setter: from the code, the continuation body executes unconditionally when
the promise resolves, and the first setter `setRadarUrl(data.image_url)`
runs exactly when the body parsed and `data.image_url` evaluates without
throwing. -/
def continuationInvokesSetter : FetchResult → Bool
  | .response _ (.ok data) => exOk (getField data "image_url")
  | _ => false

/-- A refresh still in flight when the view is deactivated at
`deactivateTime`, resolving at `resolveTime ≥ deactivateTime` with result
`r`.  The effect cleanup clears only the interval; `fetchMetadata` has no
mounted flag and no `AbortController`, so whether the setters execute does
not depend on the deactivation time at all. -/
def settersRunAfterDeactivation (deactivateTime resolveTime : Nat) (r : FetchResult) : Bool :=
  decide (deactivateTime ≤ resolveTime) && continuationInvokesSetter r

/-- The spec's classification of a fetch failure, following its words:
"network failure, non-2xx response, or JSON parse failure".  (Refinement
reference only: the code itself never inspects the status.) -/
def isFetchFailureSpec : FetchResult → Bool
  | .networkError => true
  | .response status body =>
      !(decide (200 ≤ status) && decide (status ≤ 299)) ||
      (match body with | .error _ => true | .ok _ => false)

/-- The payload of the spec's concrete scenario:
`{"image_url":"http://x/img.png","last_updated":"2024-01-01T00:00Z","bounds":[25.0,-120.0,50.0,-70.0]}`. -/
def scenarioPayload : JSVal :=
  .obj [("image_url", .str "http://x/img.png"),
        ("last_updated", .str "2024-01-01T00:00Z"),
        ("bounds", .arr [.num 25, .num (-120), .num 50, .num (-70)])]

/-- A second, different valid payload, for the consecutive-fetch scenario. -/
def otherPayload : JSVal :=
  .obj [("image_url", .str "http://y/old.png"),
        ("last_updated", .str "2023-12-31T23:00Z"),
        ("bounds", .arr [.num 10, .num (-100), .num 30, .num (-80)])]

/-! ## Helper lemmas -/

/-- `exOk` holds on `ok`. -/
theorem exOk_ok (v : JSVal) : exOk (.ok v) = true := rfl

/-- An `Except` on which `exOk` holds is an `ok`. -/
theorem exOk_true {e : Except Unit JSVal} (h : exOk e = true) : ∃ v, e = .ok v := by
  cases e with
  | ok v => exact ⟨v, rfl⟩
  | error e => simp [exOk] at h

/-- On a valid response the whole `try` block runs to completion, and the
resulting state is read entirely off the payload: `fetchBody` succeeds with
`payloadState data`, for any prior state. -/
theorem fetchBody_of_valid (st : DisplayState) (status : Nat) (data : JSVal)
    (h : validResp (.response status (.ok data)) = true) :
    fetchBody st (.response status (.ok data)) = .ok (payloadState data) := by
  simp only [validResp] at h
  cases hu : getField data "image_url" with
  | error e => rw [hu] at h; simp [exOk] at h
  | ok u =>
  cases hl : getField data "last_updated" with
  | error e => rw [hl] at h; simp [exOk] at h
  | ok lu =>
  cases hb : getField data "bounds" with
  | error e => rw [hb] at h; simp [exOk] at h
  | ok b =>
  rw [hu, hl, hb] at h
  simp only [exOk_ok, Bool.true_and, Bool.and_eq_true] at h
  obtain ⟨⟨⟨h0, h1⟩, h2⟩, h3⟩ := h
  obtain ⟨b0, hb0⟩ := exOk_true h0
  obtain ⟨b1, hb1⟩ := exOk_true h1
  obtain ⟨b2, hb2⟩ := exOk_true h2
  obtain ⟨b3, hb3⟩ := exOk_true h3
  simp [fetchBody, payloadState, hu, hl, hb, hb0, hb1, hb2, hb3, exGetD]

/-- On a valid response the state after the call is `payloadState data`. -/
theorem fetchMetadataRun_of_valid (st : DisplayState) (status : Nat) (data : JSVal)
    (h : validResp (.response status (.ok data)) = true) :
    fetchMetadataRun st (.response status (.ok data)) = payloadState data := by
  unfold fetchMetadataRun
  rw [fetchBody_of_valid st status data h]

/-- A rejected fetch or an unparseable body throws before the first setter,
so the state is untouched. -/
theorem fetchMetadataRun_unchanged_of_reject (st : DisplayState) (r : FetchResult)
    (h : r = .networkError ∨ ∃ status, r = .response status (.error ())) :
    fetchMetadataRun st r = st := by
  rcases h with h | ⟨status, h⟩ <;> subst h <;> rfl

/-- A single refresh preserves the 2x2 shape of `bounds`: every exit path
either leaves `bounds` untouched or assigns the nested-pair literal. -/
theorem wfBounds_preserved (st : DisplayState) (r : FetchResult)
    (h : wfBounds st.bounds = true) : wfBounds (fetchMetadataRun st r).bounds = true := by
  cases r with
  | networkError => exact h
  | response status body =>
    cases body with
    | error e => exact h
    | ok data =>
      cases hu : getField data "image_url" with
      | error e => simpa [fetchMetadataRun, fetchBody, hu] using h
      | ok u =>
      cases hl : getField data "last_updated" with
      | error e => simpa [fetchMetadataRun, fetchBody, hu, hl] using h
      | ok lu =>
      cases hb : getField data "bounds" with
      | error e => simpa [fetchMetadataRun, fetchBody, hu, hl, hb] using h
      | ok b =>
      cases h0 : getIndex b 0 with
      | error e => simpa [fetchMetadataRun, fetchBody, hu, hl, hb, h0] using h
      | ok b0 =>
      cases h1 : getIndex b 1 with
      | error e => simpa [fetchMetadataRun, fetchBody, hu, hl, hb, h0, h1] using h
      | ok b1 =>
      cases h2 : getIndex b 2 with
      | error e => simpa [fetchMetadataRun, fetchBody, hu, hl, hb, h0, h1, h2] using h
      | ok b2 =>
      cases h3 : getIndex b 3 with
      | error e => simpa [fetchMetadataRun, fetchBody, hu, hl, hb, h0, h1, h2, h3] using h
      | ok b3 =>
      simp [fetchMetadataRun, fetchBody, hu, hl, hb, h0, h1, h2, h3, wfBounds]

/-! ## Claim theorems -/

/-- C1, counterexample.  The claim classifies a non-2xx HTTP response as a
fetch failure and asserts the state is then left unchanged, with no partial
mutation.  The code never checks `res.ok`: an HTTP 500 whose body is the
valid JSON `{}` is processed like a success, `setRadarUrl(undefined)` and
`setLastUpdated(undefined)` execute, and only then does `data.bounds[0]`
throw — so the state after the call differs from the state before it. -/
theorem fetch_failure_claim_counterexample :
    isFetchFailureSpec (.response 500 (.ok (.obj []))) = true ∧
    fetchMetadataRun initState (.response 500 (.ok (.obj []))) ≠ initState :=
  ⟨rfl, fun h => JSVal.noConfusion (congrArg DisplayState.radarUrl h)⟩

/-- C1, amended.  For every refresh whose fetch rejects (network failure)
or whose body fails to parse as JSON, the DisplayState after the call
equals the DisplayState before the call; the non-2xx case is excluded,
because the code ignores the HTTP status. -/
theorem reject_or_parse_failure_leaves_state_unchanged (st : DisplayState) (r : FetchResult)
    (h : r = .networkError ∨ ∃ status, r = .response status (.error ())) :
    fetchMetadataRun st r = st :=
  fetchMetadataRun_unchanged_of_reject st r h

/-- C1, witness: a concrete network failure leaves the initial state
unchanged. -/
theorem reject_or_parse_failure_leaves_state_unchanged_witness :
    fetchMetadataRun initState .networkError = initState :=
  reject_or_parse_failure_leaves_state_unchanged initState .networkError (Or.inl rfl)

/-- C2.  On a refresh that succeeds (the whole `try` block runs), every
state a consumer can observe is either the full pre-call state or the full
post-call state `payloadState data`, in which all three fields come from
the new payload — never a state with only one or two fields replaced.
(The single-transition commit of the three setters is modelled from the
spec, §5; see `observableStates`.) -/
theorem success_update_atomic (st : DisplayState) (status : Nat) (data : JSVal)
    (s : DisplayState) (hv : validResp (.response status (.ok data)) = true)
    (hs : s ∈ observableStates st (.response status (.ok data))) :
    s = st ∨ s = payloadState data := by
  simp only [observableStates, List.mem_cons, List.not_mem_nil, or_false] at hs
  rcases hs with h | h
  · exact Or.inl h
  · exact Or.inr (h.trans (fetchMetadataRun_of_valid st status data hv))

/-- C2, witness: the post-call state of the spec's scenario payload is one
of the two permitted observations. -/
theorem success_update_atomic_witness :
    fetchMetadataRun initState (.response 200 (.ok scenarioPayload)) = initState ∨
    fetchMetadataRun initState (.response 200 (.ok scenarioPayload)) = payloadState scenarioPayload :=
  success_update_atomic initState 200 scenarioPayload
    (fetchMetadataRun initState (.response 200 (.ok scenarioPayload)))
    (by decide) (List.Mem.tail initState (List.Mem.head []))

/-- C3.  For every valid RadarMetadata payload with flat bounds
`[s, w, n, e]`, the state after the refresh holds the nested bounds
`[[bounds[0], bounds[1]], [bounds[2], bounds[3]]]`, element order
preserved; and the spec's concrete scenario payload produces exactly the
DisplayState the spec lists. -/
theorem bounds_transform_order_preserving :
    (∀ (st : DisplayState) (u lu : String) (b0 b1 b2 b3 : ℚ),
        fetchMetadataRun st (.response 200 (.ok (.obj
            [("image_url", .str u), ("last_updated", .str lu),
             ("bounds", .arr [.num b0, .num b1, .num b2, .num b3])]))) =
          { radarUrl := .str u, lastUpdated := .str lu,
            bounds := .arr [.arr [.num b0, .num b1], .arr [.num b2, .num b3]] }) ∧
    fetchMetadataRun initState (.response 200 (.ok scenarioPayload)) =
      { radarUrl := .str "http://x/img.png", lastUpdated := .str "2024-01-01T00:00Z",
        bounds := .arr [.arr [.num 25, .num (-120)], .arr [.num 50, .num (-70)]] } :=
  ⟨fun _ _ _ _ _ _ _ => rfl, rfl⟩

/-- C4, counterexample.  The claim asserts `radarUrl` is `null` as long as
no successful fetch has completed.  An HTTP 500 with valid JSON body `{}`
is a fetch failure under the claim's own taxonomy (non-2xx), yet after
that single refresh `radarUrl` is no longer `null` (it is `undefined`). -/
theorem initial_state_claim_counterexample :
    isFetchFailureSpec (.response 500 (.ok (.obj []))) = true ∧
    (runRefreshes [.response 500 (.ok (.obj []))]).radarUrl ≠ JSVal.jsnull ∧
    initState.radarUrl = JSVal.jsnull :=
  ⟨rfl, fun h => JSVal.noConfusion h, rfl⟩

/-- C4, amended.  Before any fetch has completed whose body parsed as JSON
— i.e. while every completed refresh was a network failure or a JSON parse
failure — the DisplayState still equals the initial state: `bounds` is the
default continental-US `[[20.0,-130.0],[55.0,-60.0]]`, `radarUrl` and
`lastUpdated` are `null`, and the image-overlay collaborator receives no
URL. -/
theorem state_initial_before_first_parsed_body (rs : List FetchResult)
    (h : ∀ r ∈ rs, r = .networkError ∨ ∃ status, r = .response status (.error ())) :
    runRefreshes rs = initState ∧
    (runRefreshes rs).radarUrl = .jsnull ∧
    (runRefreshes rs).lastUpdated = .jsnull ∧
    (runRefreshes rs).bounds = .arr [.arr [.num 20, .num (-130)], .arr [.num 55, .num (-60)]] ∧
    renderOverlay (runRefreshes rs) = none := by
  have general : ∀ (l : List FetchResult) (st : DisplayState),
      (∀ r ∈ l, r = .networkError ∨ ∃ status, r = .response status (.error ())) →
      l.foldl fetchMetadataRun st = st := by
    intro l
    induction l with
    | nil => intro st _; rfl
    | cons r l ih =>
      intro st hl
      have h1 : fetchMetadataRun st r = st :=
        fetchMetadataRun_unchanged_of_reject st r (hl r (List.mem_cons_self r l))
      simp only [List.foldl_cons, h1]
      exact ih st fun x hx => hl x (List.mem_cons_of_mem r hx)
  have main : runRefreshes rs = initState := general rs initState h
  exact ⟨main, by rw [main]; rfl, by rw [main]; rfl, by rw [main]; rfl, by rw [main]; rfl⟩

/-- C4, witness: after a network failure followed by an unparseable 500,
the state is still the initial one and no overlay is rendered. -/
theorem state_initial_before_first_parsed_body_witness :
    runRefreshes [FetchResult.networkError, .response 500 (.error ())] = initState ∧
    (runRefreshes [FetchResult.networkError, .response 500 (.error ())]).radarUrl = .jsnull ∧
    (runRefreshes [FetchResult.networkError, .response 500 (.error ())]).lastUpdated = .jsnull ∧
    (runRefreshes [FetchResult.networkError, .response 500 (.error ())]).bounds =
      .arr [.arr [.num 20, .num (-130)], .arr [.num 55, .num (-60)]] ∧
    renderOverlay (runRefreshes [FetchResult.networkError, .response 500 (.error ())]) = none :=
  state_initial_before_first_parsed_body
    [FetchResult.networkError, .response 500 (.error ())]
    (by
      intro r hr
      simp only [List.mem_cons, List.not_mem_nil, or_false] at hr
      rcases hr with h | h
      · exact Or.inl h
      · exact Or.inr ⟨500, h⟩)

/-- C5.  In every reachable state — after any sequence of refreshes with
arbitrary backend responses, including failed and partially-failed ones —
`bounds` is a well-formed pair of coordinate pairs, i.e. keeps the nested
2x2 shape `[[s,w],[n,e]]`. -/
theorem bounds_always_wellformed :
    ∀ rs : List FetchResult, wfBounds (runRefreshes rs).bounds = true := by
  have general : ∀ (l : List FetchResult) (st : DisplayState), wfBounds st.bounds = true →
      wfBounds (l.foldl fetchMetadataRun st).bounds = true := by
    intro l
    induction l with
    | nil => intro st h; exact h
    | cons r l ih => intro st h; exact ih _ (wfBounds_preserved st r h)
  intro rs
  exact general rs initState rfl

/-- C6 (code bug).  A request in flight at deactivation is not guarded:
`fetchMetadata` has no mounted flag and no `AbortController`, and the
effect cleanup clears only the interval, so a fetch that resolves 600000 ms
after a deactivation at time 0 still invokes the state setters — the code
does assign `radarUrl`, `lastUpdated` and `bounds` after the deactivation
point, contrary to the claim. -/
theorem inflight_setters_after_deactivation :
    settersRunAfterDeactivation 0 600000 (.response 200 (.ok scenarioPayload)) = true := rfl

/-- C7.  The poller fetches immediately at activation (time 0) and then at
every positive multiple of `REFRESH_INTERVAL_MS = 300000` ms before the
deactivation instant `d`; at no instant at or after `d` does a further
fetch attempt occur, however much time elapses. -/
theorem polling_schedule :
    REFRESH_INTERVAL_MS = 300000 ∧
    (∀ d, fetchAttemptAt d 0 = true) ∧
    (∀ d t, fetchAttemptAt d t = true ↔
      (t = 0 ∨ (0 < t ∧ t % REFRESH_INTERVAL_MS = 0 ∧ t < d))) ∧
    (∀ d t, d ≤ t → 0 < t → fetchAttemptAt d t = false) := by
  refine ⟨rfl, fun d => rfl, fun d t => ?_, fun d t h1 h2 => ?_⟩
  · simp only [fetchAttemptAt, REFRESH_INTERVAL_MS, Bool.or_eq_true, Bool.and_eq_true,
      beq_iff_eq, decide_eq_true_iff]
    omega
  · have ht0 : (t == 0) = false := by simp; omega
    have htd : decide (t < d) = false := by simp; omega
    simp [fetchAttemptAt, ht0, htd]

/-- C7, witness: with deactivation at 700000 ms there is an attempt at the
first interval tick (300000 ms) and none at 700000 ms. -/
theorem polling_schedule_witness :
    fetchAttemptAt 700000 300000 = true ∧ fetchAttemptAt 700000 700000 = false ∧
    REFRESH_INTERVAL_MS = 300000 :=
  ⟨(polling_schedule.2.2.1 700000 300000).mpr (Or.inr ⟨by decide, by decide, by decide⟩),
   polling_schedule.2.2.2 700000 700000 (le_refl 700000) (by decide),
   polling_schedule.1⟩

/-- C8.  For every prior state and every fetch outcome — network error,
any HTTP status, any body — `fetchMetadata` returns normally (the
catch-all handler swallows every exception), so no refresh ever throws to
its caller and the polling cycle continues. -/
theorem refresh_never_throws : ∀ (st : DisplayState) (r : FetchResult),
    fetchMetadata st r = Except.ok (fetchMetadataRun st r) := by
  intro st r
  unfold fetchMetadata fetchMetadataRun
  cases fetchBody st r <;> rfl

/-- C9.  After two consecutive fetches of which the second succeeds, the
resulting DisplayState is `payloadState data` — derived entirely from the
second payload — and coincides with the state the second fetch would have
produced from any prior state: a full replacement with no merging. -/
theorem second_fetch_fully_replaces (st : DisplayState) (r1 : FetchResult)
    (status : Nat) (data : JSVal)
    (hv : validResp (.response status (.ok data)) = true) :
    fetchMetadataRun (fetchMetadataRun st r1) (.response status (.ok data)) = payloadState data ∧
    fetchMetadataRun (fetchMetadataRun st r1) (.response status (.ok data)) =
      fetchMetadataRun st (.response status (.ok data)) := by
  constructor
  · exact fetchMetadataRun_of_valid _ status data hv
  · rw [fetchMetadataRun_of_valid _ status data hv, fetchMetadataRun_of_valid st status data hv]

/-- C9, witness: a successful fetch of `otherPayload` followed by a
successful fetch of `scenarioPayload` ends in the state derived from
`scenarioPayload` alone. -/
theorem second_fetch_fully_replaces_witness :
    (fetchMetadataRun (fetchMetadataRun initState (.response 200 (.ok otherPayload)))
        (.response 200 (.ok scenarioPayload)) = payloadState scenarioPayload ∧
     fetchMetadataRun (fetchMetadataRun initState (.response 200 (.ok otherPayload)))
        (.response 200 (.ok scenarioPayload)) =
       fetchMetadataRun initState (.response 200 (.ok scenarioPayload))) :=
  second_fetch_fully_replaces initState (.response 200 (.ok otherPayload)) 200 scenarioPayload
    (by decide)

/-- C10.  The `metadata` cell starts as `null` and no refresh sequence
ever changes it: `setMetadata` is never invoked by any code path of
`App`. -/
theorem metadata_never_written :
    initAppState.metadata = JSVal.jsnull ∧
    ∀ rs : List FetchResult, (runApp rs).metadata = JSVal.jsnull := by
  refine ⟨rfl, fun rs => ?_⟩
  have general : ∀ (l : List FetchResult) (s : AppState),
      (l.foldl appRefresh s).metadata = s.metadata := by
    intro l
    induction l with
    | nil => intro s; rfl
    | cons r l ih => intro s; exact ih (appRefresh s r)
  exact general rs initAppState

end RALA
